import Mathlib

/-!
Verification of the FraudGuard backend against its specification.

The definitions below are a shallow embedding of the Python source:
dictionaries become structures, SQLAlchemy tables become lists of rows
inside an explicit DB state, HTTP handlers become functions returning
an Except value (error = raised HTTPException), and datetimes become
natural-number timestamps passed in explicitly.  Floats are modelled
as rationals.  Each definition's doc comment names the source function
and lines it embeds.
-/

namespace FraudGuard

/-! ## Fraud detector (backend/agent/fraud_detector.py) -/

/-- Decision record produced by the decision stage of the fraud detector
(the dict returned by the branches of UnifiedFraudDetector._make_llm_fraud_decision).
The free-text reason field is not modelled (it interpolates a formatted float). -/
structure FraudDecision where
  is_fraud : Bool
  confidence_score : ℚ
  flag_type : Option Nat
  recommendation : Option String
  fallback_used : Bool
deriving Repr, DecidableEq

/-- Weighted risk combination used by both fallback branches of the decision
stage: fraud_detector.py lines 410 and 535,
combined = image*0.5 + similarity*0.3 + metadata*0.2. -/
def combined_risk (image similarity metadata : ℚ) : ℚ :=
  image * (1/2) + similarity * (3/10) + metadata * (1/5)

/-- Fallback decision taken when the text provider is unavailable
(the branch guarded by "if not self.llm" in _make_llm_fraud_decision,
fraud_detector.py lines 404-422).  Note: threshold 0.6 for is_fraud,
confidence not capped, and no recommendation field is produced. -/
def fallback_decision_no_llm (image similarity metadata : ℚ) : FraudDecision :=
  let c := combined_risk image similarity metadata
  { is_fraud := decide (c > 3/5)
    confidence_score := c
    flag_type := if c > 4/5 then some 1 else if c > 3/5 then some 2 else none
    recommendation := none
    fallback_used := false }

/-- Fallback decision taken when the text provider's output is empty or
unparseable (UnifiedFraudDetector._get_safe_fallback_decision,
fraud_detector.py lines 527-558). -/
def get_safe_fallback_decision (image similarity metadata : ℚ) : FraudDecision :=
  let c := combined_risk image similarity metadata
  { is_fraud := decide (c > 7/10)
    confidence_score := min c (4/5)
    flag_type := if c > 4/5 then some 1 else if c > 3/5 then some 2 else none
    recommendation := some (if c > 1/2 then "MANUAL_REVIEW" else "ALLOW")
    fallback_used := true }

/-- The deterministic fallback exactly as the specification words it
(spec section 4.1, "Deterministic fallback"): is_fraud at threshold 0.7,
confidence capped at 0.8, flag_type 1 above 0.8 and 2 above 0.6,
recommendation MANUAL_REVIEW above 0.5 else ALLOW.  This definition is
written from the spec so it can be compared against the two source
branches above. -/
def spec_fallback_decision (image similarity metadata : ℚ) : FraudDecision :=
  let c := combined_risk image similarity metadata
  { is_fraud := decide (c > 7/10)
    confidence_score := min c (4/5)
    flag_type := if c > 4/5 then some 1 else if c > 3/5 then some 2 else none
    recommendation := some (if c > 1/2 then "MANUAL_REVIEW" else "ALLOW")
    fallback_used := true }

/-- A decision-stage response after JSON parsing and the type coercions of
fraud_detector.py lines 493-496 (is_fraud a bool, confidence a number). -/
structure ParsedDecision where
  is_fraud : Bool
  confidence_score : ℚ
  flag_type : Option Nat
  reason : String
  recommendation : String
deriving Repr, DecidableEq

/-- Python str.upper over the string's characters. -/
def upper (s : String) : String :=
  ⟨s.data.map Char.toUpper⟩

/-- Consistency fix applied to a parsed decision-stage response
(fraud_detector.py lines 498-509): the recommendation is uppercased; if
confidence is at least 0.7 and the recommendation is FLAG or BLOCK the
verdict is forced fraudulent, else if confidence is below 0.3 and the
recommendation is ALLOW it is forced non-fraudulent. -/
def fix_consistency (d : ParsedDecision) : ParsedDecision :=
  let r := upper d.recommendation
  if d.confidence_score ≥ 7/10 ∧ (r = "FLAG" ∨ r = "BLOCK") then
    { d with is_fraud := true }
  else if d.confidence_score < 3/10 ∧ r = "ALLOW" then
    { d with is_fraud := false }
  else d

/-- Result record of a whole fraud analysis
(the dict returned by analyze_nft_for_fraud). -/
structure FraudAnalysisResult where
  is_fraud : Bool
  confidence_score : ℚ
  flag_type : Option Nat
  reason : String
deriving Repr, DecidableEq

/-- Module-level analyze_nft_for_fraud (fraud_detector.py lines 570-635):
any exception escaping the pipeline is caught and replaced by a safe
default verdict with is_fraud false and confidence 0.  The argument is the
outcome of the underlying pipeline run (error = an escaped exception). -/
def analyze_nft_for_fraud (outcome : Except String FraudAnalysisResult) :
    FraudAnalysisResult :=
  match outcome with
  | .ok r => r
  | .error e =>
      { is_fraud := false, confidence_score := 0, flag_type := none
        reason := "Analysis error: " ++ e }

/-! ## Data model (backend/models/database.py) -/

/-- Row of the users table (models/database.py, class User).
Only the columns read by the embedded endpoints are modelled. -/
structure UserRow where
  id : Nat
  wallet_address : String
deriving Repr, DecidableEq

/-- Row of the nfts table (models/database.py, class NFT).  The embedding
vector and the JSON analysis_details blob are not modelled; all columns
touched by the lifecycle endpoints are. -/
structure NFTRow where
  id : Nat
  owner_id : Nat
  wallet_address : String
  title : String
  description : String
  category : String
  price : ℚ
  image_url : String
  sui_object_id : Option String
  is_fraud : Bool
  confidence_score : ℚ
  flag_type : Option Nat
  reason : String
  status : String
  created_at : Nat
  is_listed : Bool
  listing_price : Option ℚ
  last_listed_at : Option Nat
  listing_id : Option String
  listing_status : String
deriving Repr, DecidableEq

/-- Row of the listings table (models/database.py, class Listing). -/
structure ListingRow where
  id : Nat
  nft_id : Nat
  seller_id : Nat
  price : ℚ
  expires_at : Option Nat
  status : String
  blockchain_tx_id : Option String
  updated_at : Nat
deriving Repr, DecidableEq

/-- Row of the listing_history table (models/database.py, class ListingHistory). -/
structure ListingHistoryRow where
  listing_id : Nat
  nft_id : Nat
  action : String
  old_price : Option ℚ
  new_price : Option ℚ
  seller_id : Nat
  blockchain_tx_id : Option String
deriving Repr, DecidableEq

/-- The relational store: the four tables plus id allocators (standing in
for the database-generated UUID primary keys). -/
structure DB where
  users : List UserRow
  nfts : List NFTRow
  listings : List ListingRow
  listing_history : List ListingHistoryRow
  next_listing_id : Nat
  next_user_id : Nat
  next_nft_id : Nat
deriving Repr, DecidableEq

/-- SELECT the NFT row with the given id (db.query(NFT).filter(NFT.id == nft_id).first()). -/
def findNft (db : DB) (nftId : Nat) : Option NFTRow :=
  db.nfts.find? (fun n => n.id == nftId)

/-- SELECT the user row with the given id. -/
def findUser (db : DB) (userId : Nat) : Option UserRow :=
  db.users.find? (fun u => u.id == userId)

/-- SELECT the first active listing for an NFT
(db.query(Listing).filter(nft_id == ..., status == "active").first()). -/
def findActiveListing (db : DB) (nftId : Nat) : Option ListingRow :=
  db.listings.find? (fun l => l.nft_id == nftId && l.status == "active")

/-- UPDATE of an NFT row in place (the ORM mutating the mapped object and
committing). -/
def writeNft (db : DB) (n : NFTRow) : DB :=
  { db with nfts := db.nfts.map (fun m => if m.id == n.id then n else m) }

/-- UPDATE of a listing row in place. -/
def writeListing (db : DB) (l : ListingRow) : DB :=
  { db with listings := db.listings.map (fun m => if m.id == l.id then l else m) }

/-- Number of active listings an NFT currently has. -/
def activeListingCount (db : DB) (nftId : Nat) : Nat :=
  (db.listings.filter (fun l => l.nft_id == nftId && l.status == "active")).length

/-- A raised fastapi.HTTPException (status code and detail message). -/
structure HTTPException where
  status_code : Nat
  detail : String
deriving Repr, DecidableEq

/-! ## NFT router (backend/api/nft.py) -/

/-- Response body of the nft-router confirm-mint endpoint (the dict
returned by api/nft.py confirm_nft_mint; the fraud_analysis sub-object is
not modelled). -/
structure ConfirmMintResponse where
  success : Bool
  message : String
  nft_id : Nat
  sui_object_id : Option String
  status : String
deriving Repr, DecidableEq

/-- PUT /api/nft/(nft_id)/confirm-mint (api/nft.py lines 407-484,
confirm_nft_mint).  If the NFT is already minted the handler returns the
existing data unchanged, for any provided sui_object_id; otherwise it sets
the sui object id, flips status to minted and resets every listing field
(unlisted by default). -/
def confirm_nft_mint (db : DB) (nftId : Nat) (suiObjectId : String) :
    Except HTTPException (ConfirmMintResponse × DB) :=
  match findNft db nftId with
  | none => .error ⟨404, "NFT not found"⟩
  | some nft =>
      if nft.status = "minted" then
        .ok ({ success := true, message := "NFT already minted", nft_id := nftId
               sui_object_id := nft.sui_object_id, status := "minted" }, db)
      else
        let nft' := { nft with
          sui_object_id := some suiObjectId
          status := "minted"
          is_listed := false
          listing_price := none
          last_listed_at := none
          listing_status := "inactive" }
        .ok ({ success := true
               message := "NFT mint confirmed and set as unlisted by default"
               nft_id := nftId, sui_object_id := some suiObjectId
               status := "minted" }, writeNft db nft')

/-- Response body of the listing endpoints (api/nft.py NFTListingResponse). -/
structure NFTListingResponse where
  nft_id : Nat
  listing_id : Option Nat
  price : ℚ
  status : String
  message : String
deriving Repr, DecidableEq

/-- PUT /api/nft/(nft_id)/list (api/nft.py lines 1408-1476,
list_nft_for_sale).  Checks the NFT exists, is not already listed and is
minted, inserts an active Listing and flips the NFT listing fields, all
committed together.  No ListingHistory row is written by this handler. -/
def list_nft_for_sale (db : DB) (now : Nat) (nftId : Nat) (price : ℚ)
    (expiresAt : Option Nat) : Except HTTPException (NFTListingResponse × DB) :=
  match findNft db nftId with
  | none => .error ⟨404, "NFT not found"⟩
  | some nft =>
      if nft.is_listed then .error ⟨400, "NFT is already listed for sale"⟩
      else if nft.status ≠ "minted" then
        .error ⟨400, "NFT must be minted before listing"⟩
      else
        match findUser db nft.owner_id with
        | none => .error ⟨404, "NFT owner not found"⟩
        | some user =>
            let listing : ListingRow :=
              { id := db.next_listing_id, nft_id := nft.id, seller_id := user.id
                price := price, expires_at := expiresAt, status := "active"
                blockchain_tx_id := none, updated_at := now }
            let nft' := { nft with
              is_listed := true
              listing_price := some price
              last_listed_at := some now
              listing_status := "active"
              listing_id := some (toString listing.id) }
            let db' := { writeNft db nft' with
              listings := db.listings ++ [listing]
              next_listing_id := db.next_listing_id + 1 }
            .ok ({ nft_id := nft.id, listing_id := some listing.id, price := price
                   status := "active", message := "NFT listed successfully" }, db')

/-- PUT /api/nft/(nft_id)/unlist (api/nft.py lines 1478-1535, unlist_nft).
Requires the NFT to be listed and an active listing row to exist; sets the
listing inactive and clears the NFT listing fields.  No ListingHistory row
is written by this handler. -/
def unlist_nft (db : DB) (now : Nat) (nftId : Nat) :
    Except HTTPException (NFTListingResponse × DB) :=
  match findNft db nftId with
  | none => .error ⟨404, "NFT not found"⟩
  | some nft =>
      if ¬ nft.is_listed then .error ⟨400, "NFT is not currently listed"⟩
      else
        match findActiveListing db nftId with
        | none => .error ⟨404, "Active listing not found"⟩
        | some listing =>
            let listing' := { listing with status := "inactive", updated_at := now }
            let nft' := { nft with
              is_listed := false
              listing_status := "inactive"
              listing_price := none
              last_listed_at := none }
            let db' := writeNft (writeListing db listing') nft'
            .ok ({ nft_id := nft.id, listing_id := some listing.id
                   price := listing.price, status := "inactive"
                   message := "NFT unlisted successfully" }, db')

/-- Fields of an update-listing request (api/nft.py NFTListingUpdateRequest). -/
structure NFTListingUpdateRequest where
  price : Option ℚ
  expires_at : Option Nat
deriving Repr, DecidableEq

/-- PUT /api/nft/(nft_id)/update-listing (api/nft.py lines 1805-1885,
update_nft_listing).  Requires a listed NFT with an active listing; applies
the given changes and appends exactly one ListingHistory row with action
updated, recording old and new price, in the same commit. -/
def update_nft_listing (db : DB) (now : Nat) (nftId : Nat)
    (upd : NFTListingUpdateRequest) :
    Except HTTPException (NFTListingResponse × DB) :=
  match findNft db nftId with
  | none => .error ⟨404, "NFT not found"⟩
  | some nft =>
      if ¬ nft.is_listed then .error ⟨400, "NFT is not currently listed"⟩
      else
        match findActiveListing db nftId with
        | none => .error ⟨404, "Active listing not found"⟩
        | some listing =>
            let oldPrice := listing.price
            let listing' := { listing with
              price := upd.price.getD listing.price
              expires_at := match upd.expires_at with
                | some e => some e
                | none => listing.expires_at
              updated_at := now }
            let nft' := match upd.price with
              | some p => { nft with listing_price := some p }
              | none => nft
            let history : ListingHistoryRow :=
              { listing_id := listing.id, nft_id := listing.nft_id
                action := "updated", old_price := some oldPrice
                new_price := some listing'.price, seller_id := listing.seller_id
                blockchain_tx_id := listing.blockchain_tx_id }
            let db' := { writeNft (writeListing db listing') nft' with
              listing_history := db.listing_history ++ [history] }
            .ok ({ nft_id := nft.id, listing_id := some listing.id
                   price := listing'.price, status := "active"
                   message := "NFT listing updated successfully" }, db')

/-- POST /api/nft/(nft_id)/auto-relist (api/nft.py lines 1972-2041,
auto_relist_nft).  Same checks and effects as list_nft_for_sale; no
ListingHistory row is written. -/
def auto_relist_nft (db : DB) (now : Nat) (nftId : Nat) (price : ℚ)
    (expiresAt : Option Nat) : Except HTTPException (NFTListingResponse × DB) :=
  match findNft db nftId with
  | none => .error ⟨404, "NFT not found"⟩
  | some nft =>
      if nft.is_listed then .error ⟨400, "NFT is already listed"⟩
      else if nft.status ≠ "minted" then
        .error ⟨400, "NFT must be minted before listing"⟩
      else
        match findUser db nft.owner_id with
        | none => .error ⟨404, "NFT owner not found"⟩
        | some user =>
            let listing : ListingRow :=
              { id := db.next_listing_id, nft_id := nft.id, seller_id := user.id
                price := price, expires_at := expiresAt, status := "active"
                blockchain_tx_id := none, updated_at := now }
            let nft' := { nft with
              is_listed := true
              listing_price := some price
              last_listed_at := some now
              listing_status := "active"
              listing_id := some (toString listing.id) }
            let db' := { writeNft db nft' with
              listings := db.listings ++ [listing]
              next_listing_id := db.next_listing_id + 1 }
            .ok ({ nft_id := nft.id, listing_id := some listing.id, price := price
                   status := "active", message := "NFT auto-relisted successfully" }, db')

/-- One success entry of a bulk-list response (api/nft.py lines 1779-1784). -/
structure BulkListSuccess where
  nft_id : Nat
  listing_id : Nat
  price : ℚ
  status : String
deriving Repr, DecidableEq

/-- One failure entry of a bulk-list response (each failed_listings.append
in api/nft.py bulk_list_nfts). -/
structure BulkListFailure where
  nft_id : Nat
  error : String
deriving Repr, DecidableEq

/-- One iteration of the loop body of bulk_list_nfts (api/nft.py lines
1718-1791): the per-id checks mirror list_nft_for_sale; a success is
committed immediately (per-iteration db.commit), a failure records a reason
and leaves the store untouched. -/
def bulk_list_step (now : Nat) (price : ℚ) (expiresAt : Option Nat)
    (acc : DB × List BulkListSuccess × List BulkListFailure) (nftId : Nat) :
    DB × List BulkListSuccess × List BulkListFailure :=
  let (db, succ, failed) := acc
  match findNft db nftId with
  | none => (db, succ, failed ++ [{ nft_id := nftId, error := "NFT not found" }])
  | some nft =>
      if nft.is_listed then
        (db, succ, failed ++ [{ nft_id := nftId, error := "NFT is already listed" }])
      else if nft.status ≠ "minted" then
        (db, succ, failed ++ [{ nft_id := nftId
                                error := "NFT must be minted before listing" }])
      else
        match findUser db nft.owner_id with
        | none =>
            (db, succ, failed ++ [{ nft_id := nftId, error := "NFT owner not found" }])
        | some user =>
            let listing : ListingRow :=
              { id := db.next_listing_id, nft_id := nft.id, seller_id := user.id
                price := price, expires_at := expiresAt, status := "active"
                blockchain_tx_id := none, updated_at := now }
            let nft' := { nft with
              is_listed := true
              listing_price := some price
              last_listed_at := some now
              listing_status := "active"
              listing_id := some (toString listing.id) }
            let db' := { writeNft db nft' with
              listings := db.listings ++ [listing]
              next_listing_id := db.next_listing_id + 1 }
            (db', succ ++ [{ nft_id := nftId, listing_id := listing.id
                             price := price, status := "active" }], failed)

/-- POST /api/nft/bulk-list (api/nft.py lines 1704-1803, bulk_list_nfts):
best-effort loop over the requested ids, committing each success on its
own and collecting failures with their reasons. -/
def bulk_list_nfts (db : DB) (now : Nat) (nftIds : List Nat) (price : ℚ)
    (expiresAt : Option Nat) : DB × List BulkListSuccess × List BulkListFailure :=
  nftIds.foldl (bulk_list_step now price expiresAt) (db, [], [])

/-- An NFT creation request (api/nft.py NFTCreationRequest). -/
structure NFTCreationRequest where
  title : String
  description : String
  category : String
  price : ℚ
  image_url : String
  wallet_address : String
deriving Repr, DecidableEq

/-- Response of the create endpoint (subset of the dict returned by
api/nft.py create_nft). -/
structure CreateNftResponse where
  success : Bool
  nft_id : Nat
  is_fraud : Bool
  confidence_score : ℚ
  status : String
deriving Repr, DecidableEq

/-- User get-or-create of the create path (api/nft.py lines 201-213). -/
def getOrCreateUser (db : DB) (wallet : String) : UserRow × DB :=
  match db.users.find? (fun u => u.wallet_address == wallet) with
  | some u => (u, db)
  | none =>
      let u : UserRow := { id := db.next_user_id, wallet_address := wallet }
      (u, { db with users := db.users ++ [u], next_user_id := db.next_user_id + 1 })

/-- POST /api/nft/create (api/nft.py lines 183-405, create_nft).  The
argument analysis is the outcome of the awaited analyze_nft_for_fraud
call: an error stands for an exception escaping that call, which the
handler catches (lines 227-239), substituting safe defaults with
confidence 0.1, before persisting the NFT in state pending. -/
def create_nft (db : DB) (req : NFTCreationRequest)
    (analysis : Except String FraudAnalysisResult) : CreateNftResponse × DB :=
  let (user, db1) := getOrCreateUser db req.wallet_address
  let fr : FraudAnalysisResult :=
    match analysis with
    | .ok r => r
    | .error e =>
        { is_fraud := false, confidence_score := 1/10, flag_type := none
          reason := "Fraud analysis error: " ++ e }
  let nft : NFTRow :=
    { id := db1.next_nft_id, owner_id := user.id
      wallet_address := req.wallet_address, title := req.title
      description := req.description, category := req.category
      price := req.price, image_url := req.image_url, sui_object_id := none
      is_fraud := fr.is_fraud, confidence_score := fr.confidence_score
      flag_type := fr.flag_type, reason := fr.reason, status := "pending"
      created_at := 0, is_listed := false, listing_price := none
      last_listed_at := none, listing_id := none, listing_status := "inactive" }
  ({ success := true, nft_id := nft.id, is_fraud := fr.is_fraud
     confidence_score := fr.confidence_score, status := "pending" },
   { db1 with nfts := db1.nfts ++ [nft], next_nft_id := db1.next_nft_id + 1 })

/-- Detail response of GET /api/nft/(nft_id) (subset of the dict built by
api/nft.py get_nft_details). -/
structure NFTDetailsResponse where
  id : Nat
  title : String
  status : String
  is_fraud : Bool
deriving Repr, DecidableEq

/-- Body of the try block of api/nft.py get_nft_details (lines 774-811):
raises 404 when the NFT is absent. -/
def get_nft_details_inner (db : DB) (nftId : Nat) :
    Except HTTPException NFTDetailsResponse :=
  match findNft db nftId with
  | none => .error ⟨404, "NFT not found"⟩
  | some nft => .ok { id := nft.id, title := nft.title, status := nft.status
                      is_fraud := nft.is_fraud }

/-- GET /api/nft/(nft_id) (api/nft.py lines 766-814, get_nft_details).
The handler has no separate re-raise clause for HTTPException, so its
blanket except Exception catches the 404 it raised itself and converts it
into a 500 whose detail interpolates str(e). -/
def get_nft_details (db : DB) (nftId : Nat) :
    Except HTTPException NFTDetailsResponse :=
  match get_nft_details_inner db nftId with
  | .ok r => .ok r
  | .error e =>
      .error ⟨500, "Error fetching NFT details: " ++ toString e.status_code
                     ++ ": " ++ e.detail⟩

/-- Body of GET /api/nft/(nft_id)/analysis (subset of the dict returned by
api/nft.py get_nft_analysis_details). -/
structure AnalysisDetailsResponse where
  nft_id : Nat
  is_fraud : Bool
  confidence_score : ℚ
  flag_type : Option Nat
  reason : String
  status : String
  message : Option String
deriving Repr, DecidableEq

/-- GET /api/nft/(nft_id)/analysis (api/nft.py lines 816-877,
get_nft_analysis_details).  When the NFT is absent the handler returns a
normal 200 body whose status field is the literal not_found; it raises no
404.  (The uuid-format 400 branch is not modelled: ids are numeric here.) -/
def get_nft_analysis_details (db : DB) (nftId : Nat) :
    Except HTTPException AnalysisDetailsResponse :=
  match findNft db nftId with
  | none =>
      .ok { nft_id := nftId, is_fraud := false, confidence_score := 0
            flag_type := none, reason := "NFT not found", status := "not_found"
            message := some "NFT not found" }
  | some nft =>
      .ok { nft_id := nft.id, is_fraud := nft.is_fraud
            confidence_score := nft.confidence_score, flag_type := nft.flag_type
            reason := nft.reason, status := nft.status, message := none }

/-- Insertion step for ordering NFTs by created_at descending (the SQL
order_by(NFT.created_at.desc()) of the marketplace queries). -/
def insertByCreatedDesc (n : NFTRow) : List NFTRow → List NFTRow
  | [] => [n]
  | m :: ms =>
      if m.created_at ≤ n.created_at then n :: m :: ms
      else m :: insertByCreatedDesc n ms

/-- Ordering by created_at descending. -/
def sortByCreatedDesc (l : List NFTRow) : List NFTRow :=
  l.foldr insertByCreatedDesc []

/-- Row filter of GET /api/nft/marketplace (api/nft.py lines 643-658):
include_pending widens the status set to pending, only listed NFTs are
shown, and unless include_flagged is set fraud-flagged NFTs are excluded. -/
def nft_marketplace_filter (include_flagged include_pending : Bool)
    (n : NFTRow) : Bool :=
  (if include_pending then
     (n.status == "minted" || n.status == "pending") && n.is_listed
   else n.status == "minted" && n.is_listed)
  && (include_flagged || !n.is_fraud)

/-- GET /api/nft/marketplace (api/nft.py lines 628-708,
get_marketplace_nfts of the nft router): filter, order by created_at
descending, then offset/limit pagination. -/
def get_marketplace_nfts (db : DB) (page limit : Nat)
    (include_flagged include_pending : Bool) : List NFTRow :=
  let filtered := db.nfts.filter (nft_marketplace_filter include_flagged include_pending)
  ((sortByCreatedDesc filtered).drop ((page - 1) * limit)).take limit

/-! ## Marketplace router (backend/api/marketplace.py) -/

namespace MarketplaceApi

/-- PUT /api/marketplace/nft/(nft_id)/confirm-mint (api/marketplace.py
lines 435-470, confirm_nft_mint).  No already-minted check: the sui object
id is overwritten unconditionally and the NFT is automatically listed
(is_listed true, listing_price set to the NFT price, listing_status
active).  The internally raised 404 is converted to a 500 by the blanket
except clause. -/
def confirm_nft_mint (db : DB) (now : Nat) (nftId : Nat) (suiObjectId : String) :
    Except HTTPException (ConfirmMintResponse × DB) :=
  match findNft db nftId with
  | none => .error ⟨500, "Error confirming mint: 404: NFT not found"⟩
  | some nft =>
      let nft' := { nft with
        sui_object_id := some suiObjectId
        status := "minted"
        is_listed := true
        listing_price := some nft.price
        last_listed_at := some now
        listing_status := "active" }
      .ok ({ success := true
             message := "NFT mint confirmed and automatically listed in marketplace"
             nft_id := nftId, sui_object_id := some suiObjectId
             status := "minted" }, writeNft db nft')

/-- Row filter of GET /api/marketplace/nfts (api/marketplace.py lines
139-162, get_marketplace_nfts of the marketplace router): status minted or
active plus optional price bounds.  The endpoint has no include_flagged or
include_pending parameter and applies no fraud filter (the is_fraud filter
is commented out in the source).  The case-insensitive search filter is
not modelled (no claim depends on it). -/
def marketplace_nfts_filter (min_price max_price : Option ℚ) (n : NFTRow) : Bool :=
  (n.status == "minted" || n.status == "active")
  && (match min_price with | some p => decide (p ≤ n.price) | none => true)
  && (match max_price with | some p => decide (n.price ≤ p) | none => true)

/-- GET /api/marketplace/nfts (api/marketplace.py lines 124-222): filter,
order by created_at descending, offset/limit pagination. -/
def get_marketplace_nfts (db : DB) (min_price max_price : Option ℚ)
    (page limit : Nat) : List NFTRow :=
  let filtered := db.nfts.filter (marketplace_nfts_filter min_price max_price)
  ((sortByCreatedDesc filtered).drop ((page - 1) * limit)).take limit

end MarketplaceApi

/-! ## Listings router (backend/api/listings.py) -/

namespace ListingsApi

/-- POST /api/listings/ (api/listings.py lines 172-213, create_listing).
Only checks that the NFT exists; there is no is_listed, status or
existing-active-listing precondition.  Inserts an active Listing (first
commit) and then flips the NFT listing fields (second commit).  No
ListingHistory row is written.  The internally raised 404 is converted to
a 500 by the blanket except clause. -/
def create_listing (db : DB) (now : Nat) (nftId : Nat) (price : ℚ)
    (expiresAt : Option Nat) : Except HTTPException (ListingRow × DB) :=
  match findNft db nftId with
  | none => .error ⟨500, "Failed to create listing"⟩
  | some nft =>
      let listing : ListingRow :=
        { id := db.next_listing_id, nft_id := nftId, seller_id := nft.owner_id
          price := price, expires_at := expiresAt, status := "active"
          blockchain_tx_id := none, updated_at := now }
      let db1 := { db with listings := db.listings ++ [listing]
                           next_listing_id := db.next_listing_id + 1 }
      let nft' := { nft with
        is_listed := true
        listing_price := some price
        last_listed_at := some now
        listing_status := "active" }
      .ok (listing, writeNft db1 nft')

/-- SELECT a listing by primary key. -/
def findListing (db : DB) (listingId : Nat) : Option ListingRow :=
  db.listings.find? (fun l => l.id == listingId)

/-- PUT /api/listings/(listing_id) (api/listings.py lines 671-727,
update_listing).  Applies the given changes and appends exactly one
ListingHistory row with action updated in the same commit. -/
def update_listing (db : DB) (now : Nat) (listingId : Nat)
    (price : Option ℚ) (expiresAt : Option Nat) :
    Except HTTPException (ListingRow × DB) :=
  match findListing db listingId with
  | none => .error ⟨404, "Listing not found"⟩
  | some listing =>
      let oldPrice := listing.price
      let listing' := { listing with
        price := price.getD listing.price
        expires_at := match expiresAt with
          | some e => some e
          | none => listing.expires_at
        updated_at := now }
      let history : ListingHistoryRow :=
        { listing_id := listingId, nft_id := listing.nft_id, action := "updated"
          old_price := some oldPrice, new_price := some listing'.price
          seller_id := listing.seller_id
          blockchain_tx_id := listing.blockchain_tx_id }
      let db' := { writeListing db listing' with
        listing_history := db.listing_history ++ [history] }
      .ok (listing', db')

/-- DELETE /api/listings/(listing_id) (api/listings.py lines 729-785,
delete_listing).  Soft delete: requires the listing to exist and not be
deleted already; appends exactly one ListingHistory row with action
deleted, unlists the NFT and marks the listing deleted, in the same
commit. -/
def delete_listing (db : DB) (now : Nat) (listingId : Nat) :
    Except HTTPException (String × DB) :=
  match findListing db listingId with
  | none => .error ⟨404, "Listing not found"⟩
  | some listing =>
      if listing.status = "deleted" then
        .error ⟨400, "Listing is already deleted"⟩
      else
        let history : ListingHistoryRow :=
          { listing_id := listingId, nft_id := listing.nft_id
            action := "deleted", old_price := some listing.price
            new_price := none, seller_id := listing.seller_id
            blockchain_tx_id := listing.blockchain_tx_id }
        let db1 :=
          match findNft db listing.nft_id with
          | some nft =>
              writeNft db { nft with is_listed := false, listing_status := "inactive" }
          | none => db
        let listing' := { listing with status := "deleted", updated_at := now }
        let db' := { writeListing db1 listing' with
          listing_history := db.listing_history ++ [history] }
        .ok ("Listing deleted successfully", db')

end ListingsApi

/-! ## Claims about the fraud detector -/

/-- C2 counterexample: the claim covers both decision-stage fallbacks, but
the branch taken when the text provider is unavailable (fraud_detector.py
lines 404-422) does not match the claimed formula: at image score 1,
similarity 1 and metadata risk 1 the combined risk is 1 and that branch
emits confidence 1, which is not min(combined, 0.8) and exceeds the
claimed 0.8 cap. -/
theorem c2_counterexample :
    (fallback_decision_no_llm 1 1 1).confidence_score = 1 ∧
    ¬ (fallback_decision_no_llm 1 1 1).confidence_score ≤ 4/5 ∧
    (fallback_decision_no_llm 1 1 1).confidence_score ≠
      (spec_fallback_decision 1 1 1).confidence_score := by
  refine ⟨?_, ?_, ?_⟩ <;>
    norm_num [fallback_decision_no_llm, spec_fallback_decision, combined_risk,
      min_def]

/-- C2 (amended): the fallback used when the text provider's output is
empty or unparseable equals the spec formula exactly (threshold 0.7,
confidence capped at 0.8, flag-type and recommendation thresholds as
specified); the branch used when the text provider is unavailable instead
flags at threshold 0.6, emits the uncapped combined risk as confidence
and produces no recommendation. -/
theorem c2_amended :
    (∀ image similarity metadata : ℚ,
      get_safe_fallback_decision image similarity metadata =
        spec_fallback_decision image similarity metadata) ∧
    (∀ image similarity metadata : ℚ,
      (get_safe_fallback_decision image similarity metadata).confidence_score
        ≤ 4/5) ∧
    (∀ image similarity metadata : ℚ,
      (fallback_decision_no_llm image similarity metadata).is_fraud =
          decide (combined_risk image similarity metadata > 3/5) ∧
      (fallback_decision_no_llm image similarity metadata).confidence_score =
          combined_risk image similarity metadata ∧
      (fallback_decision_no_llm image similarity metadata).recommendation =
          none) := by
  refine ⟨fun i s m => rfl, fun i s m => min_le_right _ _,
    fun i s m => ⟨rfl, rfl, rfl⟩⟩

/-- C6: after parsing, the consistency fix forces is_fraud true when
confidence is at least 0.7 and the recommendation is FLAG or BLOCK, forces
is_fraud false when confidence is below 0.3 and the recommendation is
ALLOW, and changes no other field. -/
theorem c6_consistency_fix (d : ParsedDecision) :
    (d.confidence_score ≥ 7/10 →
      (d.recommendation = "FLAG" ∨ d.recommendation = "BLOCK") →
      (fix_consistency d).is_fraud = true) ∧
    (d.confidence_score < 3/10 → d.recommendation = "ALLOW" →
      (fix_consistency d).is_fraud = false) ∧
    (fix_consistency d).confidence_score = d.confidence_score ∧
    (fix_consistency d).flag_type = d.flag_type ∧
    (fix_consistency d).reason = d.reason ∧
    (fix_consistency d).recommendation = d.recommendation := by
  refine ⟨?_, ?_, ?_, ?_, ?_, ?_⟩
  · intro hc hr
    have hru : upper d.recommendation = "FLAG" ∨ upper d.recommendation = "BLOCK" := by
      rcases hr with h | h <;> rw [h]
      · exact Or.inl (by decide)
      · exact Or.inr (by decide)
    simp only [fix_consistency]
    rw [if_pos ⟨hc, hru⟩]
  · intro hc hr
    have hnot : ¬ (d.confidence_score ≥ 7/10 ∧
        (upper d.recommendation = "FLAG" ∨ upper d.recommendation = "BLOCK")) := by
      rintro ⟨h, _⟩
      have : (3:ℚ)/10 ≤ 7/10 := by norm_num
      linarith
    have hru : upper d.recommendation = "ALLOW" := by rw [hr]; decide
    simp only [fix_consistency]
    rw [if_neg hnot, if_pos ⟨hc, hru⟩]
  all_goals
    simp only [fix_consistency]
    split
    · rfl
    · split <;> rfl

/-- C6 witness: a parsed decision with confidence 0.9 and recommendation
FLAG is forced fraudulent by the consistency fix. -/
theorem c6_witness :
    (fix_consistency { is_fraud := false, confidence_score := 9/10
                       flag_type := none, reason := "high risk"
                       recommendation := "FLAG" }).is_fraud = true :=
  (c6_consistency_fix _).1 (by norm_num) (Or.inl rfl)

/-- C10: an exception escaping the fraud-analysis pipeline can never flag
an NFT or block creation: the module-level wrapper absorbs the error into
a verdict with is_fraud false and confidence 0, and even an exception
escaping the wrapper call itself is absorbed by create_nft, which still
persists the NFT in state pending with is_fraud false and confidence at
most 0.1. -/
theorem c10_fail_open (db : DB) (req : NFTCreationRequest) (e e2 : String) :
    ((analyze_nft_for_fraud (.error e)).is_fraud = false ∧
      (analyze_nft_for_fraud (.error e)).confidence_score ≤ 1/10) ∧
    (∃ nft ∈ (create_nft db req (.ok (analyze_nft_for_fraud (.error e)))).2.nfts,
      nft.id = (create_nft db req (.ok (analyze_nft_for_fraud (.error e)))).1.nft_id ∧
      nft.is_fraud = false ∧ nft.confidence_score ≤ 1/10 ∧
      nft.status = "pending") ∧
    (∃ nft ∈ (create_nft db req (.error e2)).2.nfts,
      nft.id = (create_nft db req (.error e2)).1.nft_id ∧
      nft.is_fraud = false ∧ nft.confidence_score ≤ 1/10 ∧
      nft.status = "pending") := by
  refine ⟨⟨rfl, by norm_num [analyze_nft_for_fraud]⟩, ?_, ?_⟩ <;>
  · simp only [create_nft, analyze_nft_for_fraud]
    refine ⟨_, List.mem_append_right _ (List.mem_singleton_self _), rfl, rfl, ?_, rfl⟩
    norm_num

/-! ## Claims about the lifecycle endpoints -/

/-- Replacing the found row by one with the same id makes the lookup
return the replacement. -/
theorem find?_map_update (l : List NFTRow) (i : Nat) (n n' : NFTRow)
    (h : l.find? (fun m => m.id == i) = some n) (hid : n'.id = n.id) :
    (l.map fun m => if m.id == n'.id then n' else m).find?
      (fun m => m.id == i) = some n' := by
  have hni : n.id = i := by simpa using List.find?_some h
  have hn'i : (n'.id == i) = true := by simp [hid, hni]
  induction l with
  | nil => simp at h
  | cons a t ih =>
    by_cases ha : a.id = i
    · rw [List.find?_cons_of_pos _ (by simpa using ha)] at h
      obtain rfl : a = n := by injection h
      have h1 : (a.id == n'.id) = true := by simp [hid]
      simp only [List.map_cons, h1, if_true]
      exact List.find?_cons_of_pos _ hn'i
    · rw [List.find?_cons_of_neg _ (by simpa using ha)] at h
      have h1 : (a.id == n'.id) = false := by
        simp only [beq_eq_false_iff_ne, ne_eq, hid, hni]
        exact ha
      simp only [List.map_cons, h1, if_false]
      rw [List.find?_cons_of_neg _ (by simpa using ha)]
      exact ih h

/-- Lookup after an NFT write: the stored row is the written one. -/
theorem findNft_writeNft (db : DB) (i : Nat) (n n' : NFTRow)
    (h : findNft db i = some n) (hid : n'.id = n.id) :
    findNft (writeNft db n') i = some n' :=
  find?_map_update db.nfts i n n' h hid

/-- A user fixture shared by the concrete-state theorems below. -/
def userA : UserRow := { id := 1, wallet_address := "0xAAA" }

/-- A minted, unlisted NFT fixture. -/
def nftMintedA : NFTRow :=
  { id := 1, owner_id := 1, wallet_address := "0xAAA", title := "Sunset 1"
    description := "Original digital painting", category := "art", price := 2
    image_url := "https://img/ok.jpg", sui_object_id := some "0xSUI1"
    is_fraud := false, confidence_score := 0, flag_type := none, reason := ""
    status := "minted", created_at := 0, is_listed := false
    listing_price := none, last_listed_at := none, listing_id := none
    listing_status := "inactive" }

/-- Store holding exactly the minted, unlisted NFT and its owner. -/
def dbMintedA : DB :=
  { users := [userA], nfts := [nftMintedA], listings := [], listing_history := []
    next_listing_id := 1, next_user_id := 2, next_nft_id := 2 }

/-- C1 (amended): for an NFT already minted, the nft-router confirm-mint
returns the existing record and leaves the store untouched for ANY
provided sui_object_id, matching or not; no Conflict is ever raised. -/
theorem c1_confirm_mint_idempotent (db : DB) (nftId : Nat) (sui : String)
    (nft : NFTRow) (hfind : findNft db nftId = some nft)
    (hminted : nft.status = "minted") :
    confirm_nft_mint db nftId sui =
      .ok ({ success := true, message := "NFT already minted", nft_id := nftId
             sui_object_id := nft.sui_object_id, status := "minted" }, db) := by
  unfold confirm_nft_mint
  rw [hfind]
  simp [hminted]

/-- C1 witness: the already-minted NFT fixture, re-confirmed with its own
sui object id, comes back unchanged. -/
theorem c1_witness :
    confirm_nft_mint dbMintedA 1 "0xSUI1" =
      .ok ({ success := true, message := "NFT already minted", nft_id := 1
             sui_object_id := some "0xSUI1", status := "minted" }, dbMintedA) :=
  c1_confirm_mint_idempotent dbMintedA 1 "0xSUI1" nftMintedA rfl rfl

/-- C1 counterexample: confirming the already-minted fixture with a
DIFFERENT sui object id does not fail with Conflict (or at all): the
handler answers success with the previously recorded id and the store
unchanged (api/nft.py lines 429-437 return before any comparison of the
provided and stored ids). -/
theorem c1_counterexample :
    confirm_nft_mint dbMintedA 1 "0xSUI2" =
      .ok ({ success := true, message := "NFT already minted", nft_id := 1
             sui_object_id := some "0xSUI1", status := "minted" }, dbMintedA) := by
  rfl

/-- The NFT row as rewritten by the fresh-mint branch of the nft-router
confirm-mint (api/nft.py lines 441-448). -/
def mintedUnlisted (nft : NFTRow) (sui : String) : NFTRow :=
  { nft with
    sui_object_id := some sui
    status := "minted"
    is_listed := false
    listing_price := none
    last_listed_at := none
    listing_status := "inactive" }

/-- C5 (amended): a successful nft-router confirm-mint of a not-yet-minted
NFT stores it as minted and unlisted by default: is_listed false,
listing_price cleared, last_listed_at cleared, listing_status inactive.
The marketplace-router confirm-mint behaves differently (see the
counterexample). -/
theorem c5_confirm_mint_unlisted (db : DB) (nftId : Nat) (sui : String)
    (nft : NFTRow) (hfind : findNft db nftId = some nft)
    (hnot : nft.status ≠ "minted") :
    confirm_nft_mint db nftId sui =
      .ok ({ success := true
             message := "NFT mint confirmed and set as unlisted by default"
             nft_id := nftId, sui_object_id := some sui, status := "minted" },
           writeNft db (mintedUnlisted nft sui)) ∧
    findNft (writeNft db (mintedUnlisted nft sui)) nftId =
      some (mintedUnlisted nft sui) ∧
    (mintedUnlisted nft sui).status = "minted" ∧
    (mintedUnlisted nft sui).is_listed = false ∧
    (mintedUnlisted nft sui).listing_price = none ∧
    (mintedUnlisted nft sui).listing_status = "inactive" := by
  refine ⟨?_, findNft_writeNft db nftId nft _ hfind rfl, rfl, rfl, rfl, rfl⟩
  unfold confirm_nft_mint
  rw [hfind]
  simp [hnot, mintedUnlisted]

/-- A pending NFT fixture (no sui object id yet). -/
def nftPendingB : NFTRow :=
  { nftMintedA with
    id := 2
    sui_object_id := none
    status := "pending" }

/-- Store holding exactly the pending NFT and its owner. -/
def dbPendingB : DB :=
  { dbMintedA with nfts := [nftPendingB] }

/-- C5 witness: confirming the pending fixture through the nft router
yields a minted, unlisted record. -/
theorem c5_witness :
    confirm_nft_mint dbPendingB 2 "0xSUI9" =
      .ok ({ success := true
             message := "NFT mint confirmed and set as unlisted by default"
             nft_id := 2
             sui_object_id := some "0xSUI9"
             status := "minted" },
           writeNft dbPendingB (mintedUnlisted nftPendingB "0xSUI9")) :=
  (c5_confirm_mint_unlisted dbPendingB 2 "0xSUI9" nftPendingB rfl (by decide)).1

/-- The NFT row as rewritten by the marketplace-router confirm-mint
(api/marketplace.py lines 450-456): automatically listed. -/
def nftAutoListedB : NFTRow :=
  { nftPendingB with
    sui_object_id := some "0xSUI9"
    status := "minted"
    is_listed := true
    listing_price := some nftPendingB.price
    last_listed_at := some 5
    listing_status := "active" }

/-- C5 counterexample: confirming the same pending fixture through the
marketplace router stores it LISTED: is_listed true, listing_price set to
the NFT price and listing_status active, contradicting the claim that
every successful confirm_mint leaves the NFT unlisted with the listing
fields cleared. -/
theorem c5_counterexample :
    MarketplaceApi.confirm_nft_mint dbPendingB 5 2 "0xSUI9" =
      .ok ({ success := true
             message := "NFT mint confirmed and automatically listed in marketplace"
             nft_id := 2
             sui_object_id := some "0xSUI9"
             status := "minted" },
           { dbPendingB with nfts := [nftAutoListedB] }) ∧
    nftAutoListedB.is_listed = true ∧
    nftAutoListedB.listing_status = "active" ∧
    nftAutoListedB.listing_price = some 2 := ⟨rfl, rfl, rfl, rfl⟩

/-- C3 (amended): of the lifecycle operations, only the two update
endpoints and the delete endpoint append a ListingHistory row (exactly
one, in the same commit as the Listing/NFT mutations); a successful list,
unlist or listings-router create appends none. -/
theorem c3_history_behavior :
    (∀ db now nftId price ex r db',
      list_nft_for_sale db now nftId price ex = .ok (r, db') →
      db'.listing_history = db.listing_history) ∧
    (∀ db now nftId r db',
      unlist_nft db now nftId = .ok (r, db') →
      db'.listing_history = db.listing_history) ∧
    (∀ db now nftId price ex l db',
      ListingsApi.create_listing db now nftId price ex = .ok (l, db') →
      db'.listing_history = db.listing_history) ∧
    (∀ db now nftId upd r db',
      update_nft_listing db now nftId upd = .ok (r, db') →
      ∃ hrow, db'.listing_history = db.listing_history ++ [hrow] ∧
        hrow.action = "updated") ∧
    (∀ db now listingId price ex l db',
      ListingsApi.update_listing db now listingId price ex = .ok (l, db') →
      ∃ hrow, db'.listing_history = db.listing_history ++ [hrow] ∧
        hrow.action = "updated") ∧
    (∀ db now listingId msg db',
      ListingsApi.delete_listing db now listingId = .ok (msg, db') →
      ∃ hrow, db'.listing_history = db.listing_history ++ [hrow] ∧
        hrow.action = "deleted") := by
  refine ⟨?_, ?_, ?_, ?_, ?_, ?_⟩
  · intro db now nftId price ex r db' h
    unfold list_nft_for_sale at h
    repeat' split at h
    all_goals
      first
      | exact Except.noConfusion h
      | (simp only [Except.ok.injEq, Prod.mk.injEq] at h
         obtain ⟨-, rfl⟩ := h
         rfl)
  · intro db now nftId r db' h
    unfold unlist_nft at h
    repeat' split at h
    all_goals
      first
      | exact Except.noConfusion h
      | (simp only [Except.ok.injEq, Prod.mk.injEq] at h
         obtain ⟨-, rfl⟩ := h
         rfl)
  · intro db now nftId price ex l db' h
    unfold ListingsApi.create_listing at h
    repeat' split at h
    all_goals
      first
      | exact Except.noConfusion h
      | (simp only [Except.ok.injEq, Prod.mk.injEq] at h
         obtain ⟨-, rfl⟩ := h
         rfl)
  · intro db now nftId upd r db' h
    unfold update_nft_listing at h
    repeat' split at h
    all_goals
      first
      | exact Except.noConfusion h
      | (simp only [Except.ok.injEq, Prod.mk.injEq] at h
         obtain ⟨-, rfl⟩ := h
         exact ⟨_, rfl, rfl⟩)
  · intro db now listingId price ex l db' h
    unfold ListingsApi.update_listing at h
    repeat' split at h
    all_goals
      first
      | exact Except.noConfusion h
      | (simp only [Except.ok.injEq, Prod.mk.injEq] at h
         obtain ⟨-, rfl⟩ := h
         exact ⟨_, rfl, rfl⟩)
  · intro db now listingId msg db' h
    unfold ListingsApi.delete_listing at h
    repeat' split at h
    all_goals
      first
      | exact Except.noConfusion h
      | (simp only [Except.ok.injEq, Prod.mk.injEq] at h
         obtain ⟨-, rfl⟩ := h
         exact ⟨_, rfl, rfl⟩)

/-- The listing row created by listing the minted fixture at time 7,
price 2. -/
def listingA : ListingRow :=
  { id := 1
    nft_id := 1
    seller_id := 1
    price := 2
    expires_at := none
    status := "active"
    blockchain_tx_id := none
    updated_at := 7 }

/-- The minted fixture after listing. -/
def nftListedA : NFTRow :=
  { nftMintedA with
    is_listed := true
    listing_price := some 2
    last_listed_at := some 7
    listing_status := "active"
    listing_id := some "1" }

/-- Store state after listing the minted fixture. -/
def dbListedA : DB :=
  { users := [userA]
    nfts := [nftListedA]
    listings := [listingA]
    listing_history := []
    next_listing_id := 2
    next_user_id := 2
    next_nft_id := 2 }

/-- Response of listing the minted fixture. -/
def listRespA : NFTListingResponse :=
  { nft_id := 1
    listing_id := some 1
    price := 2
    status := "active"
    message := "NFT listed successfully" }

/-- C3 counterexample: listing the minted fixture succeeds, yet the
listing-history table stays empty: no ListingHistory row is appended,
where the claim demands exactly one (api/nft.py list_nft_for_sale never
constructs a ListingHistory object). -/
theorem c3_counterexample :
    list_nft_for_sale dbMintedA 7 1 2 none = .ok (listRespA, dbListedA) ∧
    dbListedA.listing_history = [] := ⟨rfl, rfl⟩

/-- C3 witness: the no-history part of the amended claim, instantiated on
the successful listing of the minted fixture. -/
theorem c3_witness :
    dbListedA.listing_history = dbMintedA.listing_history :=
  c3_history_behavior.1 dbMintedA 7 1 2 none listRespA dbListedA (by rfl)

/-- C4 (amended): a successful nft-router list requires the NFT to be
minted and not already listed, and adds exactly one active listing for
it; but the listings-router create_listing checks no such precondition,
so a second active listing for the same NFT is reachable (see the
counterexample). -/
theorem c4_list_precondition :
    (∀ db now nftId price ex r db',
      list_nft_for_sale db now nftId price ex = .ok (r, db') →
      ∃ nft, findNft db nftId = some nft ∧ nft.status = "minted" ∧
        nft.is_listed = false) ∧
    (∀ db now nftId price ex r db',
      list_nft_for_sale db now nftId price ex = .ok (r, db') →
      activeListingCount db' nftId = activeListingCount db nftId + 1) := by
  constructor
  · intro db now nftId price ex r db' h
    unfold list_nft_for_sale at h
    split at h
    · exact Except.noConfusion h
    next nft hfind =>
      split at h
      · exact Except.noConfusion h
      next hl =>
        split at h
        · exact Except.noConfusion h
        next hs =>
          exact ⟨nft, hfind, not_not.mp hs, by simpa using hl⟩
  · intro db now nftId price ex r db' h
    unfold list_nft_for_sale at h
    split at h
    · exact Except.noConfusion h
    next nft hfind =>
      have hni : nft.id = nftId := by simpa using List.find?_some hfind
      split at h
      · exact Except.noConfusion h
      next hl =>
        split at h
        · exact Except.noConfusion h
        next hs =>
          split at h
          · exact Except.noConfusion h
          next user huser =>
            simp only [Except.ok.injEq, Prod.mk.injEq] at h
            obtain ⟨-, rfl⟩ := h
            simp [activeListingCount, writeNft, List.filter_append, hni]

/-- C4 witness: the precondition part of the amended claim, instantiated
on the successful listing of the minted fixture. -/
theorem c4_witness :
    ∃ nft, findNft dbMintedA 1 = some nft ∧ nft.status = "minted" ∧
      nft.is_listed = false :=
  c4_list_precondition.1 dbMintedA 7 1 2 none listRespA dbListedA (by rfl)

/-- C4 counterexample: calling the listings-router create_listing twice on
the same minted NFT succeeds both times and leaves TWO active listings
for that NFT, violating the at-most-one-active-listing invariant
(api/listings.py create_listing never checks is_listed, the NFT status or
an existing active listing). -/
theorem c4_counterexample :
    ((ListingsApi.create_listing dbMintedA 3 1 2 none).toOption.bind
        (fun p => (ListingsApi.create_listing p.2 4 1 2 none).toOption)).map
      (fun p => activeListingCount p.2 1) = some 2 := by
  rfl

/-- Per-entry soundness invariant of the bulk-list accumulator: every
reported success has an active listing stored for its NFT. -/
def BulkOk (st : DB × List BulkListSuccess × List BulkListFailure) : Prop :=
  ∀ s ∈ st.2.1, ∃ l ∈ st.1.listings, l.nft_id = s.nft_id ∧ l.status = "active"

/-- One bulk-list iteration preserves the soundness invariant: old
successes keep their listings (the step only appends to the listings
table) and a new success stores its own active listing in the same
commit. -/
theorem bulk_step_ok (now : Nat) (price : ℚ) (ex : Option Nat)
    (acc : DB × List BulkListSuccess × List BulkListFailure) (i : Nat)
    (hok : BulkOk acc) : BulkOk (bulk_list_step now price ex acc i) := by
  obtain ⟨db, succ, failed⟩ := acc
  unfold BulkOk at *
  simp only [bulk_list_step]
  split
  · exact hok
  next nft hfind =>
    split
    · exact hok
    split
    · exact hok
    split
    · exact hok
    next user huser =>
      intro s hs
      rcases List.mem_append.mp hs with hold | hnew
      · obtain ⟨l, hl, h1, h2⟩ := hok s hold
        exact ⟨l, List.mem_append_left _ hl, h1, h2⟩
      · have hsEq : s = { nft_id := i, listing_id := db.next_listing_id
                          price := price, status := "active" } := by
          simpa using hnew
        subst hsEq
        refine ⟨_, List.mem_append_right _ (List.mem_singleton_self _), ?_, rfl⟩
        simpa using List.find?_some hfind

/-- One bulk-list iteration appends the requested id to exactly one of the
two result lists. -/
theorem bulk_step_ids (now : Nat) (price : ℚ) (ex : Option Nat)
    (acc : DB × List BulkListSuccess × List BulkListFailure) (i : Nat) :
    ((bulk_list_step now price ex acc i).2.1.map BulkListSuccess.nft_id ++
      (bulk_list_step now price ex acc i).2.2.map BulkListFailure.nft_id).Perm
    ((acc.2.1.map BulkListSuccess.nft_id ++
      acc.2.2.map BulkListFailure.nft_id) ++ [i]) := by
  obtain ⟨db, succ, failed⟩ := acc
  simp only [bulk_list_step]
  repeat' split
  all_goals
    simp only [List.map_append, List.map_cons, List.map_nil, List.append_assoc]
  all_goals
    first
    | exact List.Perm.refl _
    | exact List.Perm.append_left _ List.perm_append_comm

/-- Failure-reason invariant of the bulk-list accumulator: every reported
failure carries a non-empty reason. -/
def BulkFailOk (st : DB × List BulkListSuccess × List BulkListFailure) : Prop :=
  ∀ f ∈ st.2.2, f.error ≠ ""

/-- One bulk-list iteration preserves the failure-reason invariant: each
failure branch records one of four fixed non-empty messages. -/
theorem bulk_step_fail_ok (now : Nat) (price : ℚ) (ex : Option Nat)
    (acc : DB × List BulkListSuccess × List BulkListFailure) (i : Nat)
    (hok : BulkFailOk acc) : BulkFailOk (bulk_list_step now price ex acc i) := by
  obtain ⟨db, succ, failed⟩ := acc
  unfold BulkFailOk at *
  simp only [bulk_list_step]
  repeat' split
  all_goals intro f hf
  all_goals try rcases List.mem_append.mp hf with hf | hf
  all_goals
    first
    | exact hok f hf
    | (rw [List.mem_singleton] at hf
       subst hf
       simp)

/-- The failure-reason invariant is preserved by the whole bulk-list fold. -/
theorem bulk_foldl_fail_ok (now : Nat) (price : ℚ) (ex : Option Nat)
    (ids : List Nat) (acc : DB × List BulkListSuccess × List BulkListFailure)
    (hok : BulkFailOk acc) :
    BulkFailOk (ids.foldl (bulk_list_step now price ex) acc) := by
  induction ids generalizing acc with
  | nil => exact hok
  | cons i t ih => exact ih _ (bulk_step_fail_ok now price ex acc i hok)

/-- The soundness invariant is preserved by the whole bulk-list fold. -/
theorem bulk_foldl_ok (now : Nat) (price : ℚ) (ex : Option Nat)
    (ids : List Nat) (acc : DB × List BulkListSuccess × List BulkListFailure)
    (hok : BulkOk acc) :
    BulkOk (ids.foldl (bulk_list_step now price ex) acc) := by
  induction ids generalizing acc with
  | nil => exact hok
  | cons i t ih => exact ih _ (bulk_step_ok now price ex acc i hok)

/-- The bulk-list fold turns the processed ids into the concatenation of
the two result lists, up to interleaving. -/
theorem bulk_foldl_ids (now : Nat) (price : ℚ) (ex : Option Nat)
    (ids : List Nat) (acc : DB × List BulkListSuccess × List BulkListFailure) :
    (((ids.foldl (bulk_list_step now price ex) acc).2.1.map
        BulkListSuccess.nft_id) ++
      ((ids.foldl (bulk_list_step now price ex) acc).2.2.map
        BulkListFailure.nft_id)).Perm
    ((acc.2.1.map BulkListSuccess.nft_id ++
      acc.2.2.map BulkListFailure.nft_id) ++ ids) := by
  induction ids generalizing acc with
  | nil => simp
  | cons i t ih =>
      refine (ih (bulk_list_step now price ex acc i)).trans ?_
      refine ((bulk_step_ids now price ex acc i).append_right t).trans ?_
      rw [List.append_assoc, List.singleton_append]

/-- C9: bulk_list_nfts reports an exact partition of the requested ids
(every id lands in exactly one of the success and failure lists, counting
multiplicity), every reported success has its active listing persisted in
the final store regardless of failures elsewhere in the batch, and every
failure carries a non-empty reason. -/
theorem c9_bulk_partition (db : DB) (now : Nat) (ids : List Nat) (price : ℚ)
    (ex : Option Nat) :
    ((bulk_list_nfts db now ids price ex).2.1.map BulkListSuccess.nft_id ++
      (bulk_list_nfts db now ids price ex).2.2.map
        BulkListFailure.nft_id).Perm ids ∧
    (∀ s ∈ (bulk_list_nfts db now ids price ex).2.1,
      ∃ l ∈ (bulk_list_nfts db now ids price ex).1.listings,
        l.nft_id = s.nft_id ∧ l.status = "active") ∧
    ∀ f ∈ (bulk_list_nfts db now ids price ex).2.2, f.error ≠ "" := by
  refine ⟨?_, ?_, ?_⟩
  · simpa using bulk_foldl_ids now price ex ids (db, [], [])
  · exact bulk_foldl_ok now price ex ids (db, [], [])
      (by intro s hs; simp at hs)
  · exact bulk_foldl_fail_ok now price ex ids (db, [], [])
      (by intro f hf; simp at hf)

/-- C9 witness: bulk-listing the batch of the minted fixture id together
with an unknown id reports the first successful, and its active listing
is stored. -/
theorem c9_witness :
    ∃ l ∈ (bulk_list_nfts dbMintedA 7 [1, 99] 2 none).1.listings,
      l.nft_id = 1 ∧ l.status = "active" := by
  have h := (c9_bulk_partition dbMintedA 7 [1, 99] 2 none).2.1
  have hmem : ({ nft_id := 1, listing_id := 1, price := 2, status := "active" } :
      BulkListSuccess) ∈ (bulk_list_nfts dbMintedA 7 [1, 99] 2 none).2.1 := by
    rw [show (bulk_list_nfts dbMintedA 7 [1, 99] 2 none).2.1 =
      [{ nft_id := 1, listing_id := 1, price := 2, status := "active" }] from rfl]
    exact List.mem_singleton_self _
  exact h _ hmem

/-- Empty store fixture. -/
def dbEmpty : DB :=
  { users := []
    nfts := []
    listings := []
    listing_history := []
    next_listing_id := 1
    next_user_id := 1
    next_nft_id := 1 }

/-- C7: evaluating both detail endpoints on an absent NFT id shows the
divergence from the specified NotFound/404 behavior: get_nft_details
raises its 404 inside the try block and the blanket except converts it
into a 500, while get_nft_analysis_details returns a plain 200 body whose
status field is not_found. -/
theorem c7_notfound_divergence :
    get_nft_details dbEmpty 99 =
      .error { status_code := 500
               detail := "Error fetching NFT details: 404: NFT not found" } ∧
    get_nft_analysis_details dbEmpty 99 =
      .ok { nft_id := 99
            is_fraud := false
            confidence_score := 0
            flag_type := none
            reason := "NFT not found"
            status := "not_found"
            message := some "NFT not found" } := ⟨rfl, rfl⟩

/-- Membership is preserved by the descending insertion step. -/
theorem mem_insertByCreatedDesc (n m : NFTRow) (l : List NFTRow) :
    m ∈ insertByCreatedDesc n l ↔ m = n ∨ m ∈ l := by
  induction l with
  | nil => simp [insertByCreatedDesc]
  | cons a t ih =>
      unfold insertByCreatedDesc
      split
      · simp [List.mem_cons]
      · simp [List.mem_cons, ih]
        tauto

/-- Sorting by created_at descending preserves membership. -/
theorem mem_sortByCreatedDesc (m : NFTRow) (l : List NFTRow) :
    m ∈ sortByCreatedDesc l ↔ m ∈ l := by
  induction l with
  | nil => simp [sortByCreatedDesc]
  | cons a t ih =>
      unfold sortByCreatedDesc at *
      simp only [List.foldr_cons, mem_insertByCreatedDesc, ih, List.mem_cons]

/-- C8 (amended): every NFT on a page of the nft-router marketplace browse
with both flags at their defaults is unflagged and minted.  The
marketplace-router browse has no such filters (see the counterexample). -/
theorem c8_nft_marketplace_defaults (db : DB) (page limit : Nat) (n : NFTRow)
    (h : n ∈ get_marketplace_nfts db page limit false false) :
    n.is_fraud = false ∧ n.status = "minted" := by
  have h1 : n ∈ sortByCreatedDesc
      (db.nfts.filter (nft_marketplace_filter false false)) :=
    List.drop_subset _ _ (List.take_subset _ _ h)
  have h2 : n ∈ db.nfts.filter (nft_marketplace_filter false false) :=
    (mem_sortByCreatedDesc n _).mp h1
  have h3 := List.of_mem_filter h2
  unfold nft_marketplace_filter at h3
  simp at h3
  exact ⟨h3.2, h3.1.1⟩

/-- C8 witness: the listed minted fixture appears on the default page of
the nft-router browse and satisfies both guarantees. -/
theorem c8_witness :
    nftListedA.is_fraud = false ∧ nftListedA.status = "minted" :=
  c8_nft_marketplace_defaults dbListedA 1 20 nftListedA (by
    rw [show get_marketplace_nfts dbListedA 1 20 false false = [nftListedA]
      from rfl]
    exact List.mem_singleton_self _)

/-- A fraud-flagged, minted, listed NFT fixture. -/
def nftFraudC : NFTRow :=
  { nftMintedA with
    id := 3
    is_fraud := true
    is_listed := true
    listing_status := "active"
    listing_price := some 2 }

/-- Store holding exactly the flagged NFT and a user. -/
def dbFraudC : DB :=
  { dbMintedA with nfts := [nftFraudC] }

/-- C8 counterexample: the marketplace-router browse
(GET /api/marketplace/nfts), queried with no filters-that is, everything
at its defaults-returns the fraud-flagged NFT: that endpoint has no
include_flagged parameter and applies no fraud filter at all. -/
theorem c8_counterexample :
    nftFraudC ∈ MarketplaceApi.get_marketplace_nfts dbFraudC none none 1 20 ∧
    nftFraudC.is_fraud = true := by
  constructor
  · rw [show MarketplaceApi.get_marketplace_nfts dbFraudC none none 1 20 =
        [nftFraudC] from rfl]
    exact List.mem_singleton_self _
  · rfl

end FraudGuard
